import Mathlib

/-!
Verification of the automatic astrometry refinement core
(RMS/Astrometry/ACFnew.py): the star matcher, the residual/cost
evaluator `matchStarsResiduals`, the per-evaluation wrappers, and the
refinement controller `autoCheckFit`.

Floating point numbers of the source are embedded as real numbers.
External collaborators (the projection model, the catalog subset
provider, the catalog loader, the file-name-to-Julian-date conversion,
the scipy minimizer and the state of the global random generator) are
bundled in an `Ext` record of pure functions, as the specification
treats them: pure functions of their inputs.
-/

namespace ACF

/-- Detected image star: one row of a `star_dict` value.  The matcher
unpacks a row as `im_star_y, im_star_x, bg_level, level`, so the
components are (y, x, background level, intensity level). -/
abbrev StarEntry : Type := ℝ × ℝ × ℝ × ℝ

/-- Catalog star: a `(ra, dec, mag)` row of the star catalog. -/
abbrev CatStar : Type := ℝ × ℝ × ℝ

/-- Astrometry calibration record (`Platepar`): the fields of the
platepar that ACFnew.py reads or writes. -/
structure Platepar where
  RA_d : ℝ
  dec_d : ℝ
  pos_angle_ref : ℝ
  F_scale : ℝ
  x_poly : List ℝ
  y_poly : List ℝ
  X_res : ℝ
  Y_res : ℝ

/-- Configuration fields of `config` that `autoCheckFit` reads. -/
structure Config where
  ff_min_stars : ℕ
  calstars_files_N : ℕ
  calstars_min_stars : ℕ
  min_matched_stars : ℕ

/-- External collaborators of the core, modelled as pure functions.

* `XY2CorrectedRADecPP jd x y pp` abstracts the inverse projection
  call `XY2CorrectedRADecPP([jd2Date(jd)], [x], [y], [0], platepar)`,
  returning the (RA, dec) of the given pixel;
* `subsetCatalog` abstracts the compiled `subsetCatalog` primitive;
* `raDecToCorrectedXYPP ra dec jd pp` abstracts the forward
  projection, returning the pixel (x, y) of a catalog star;
* `catalog_mag_limit` is the module-global `config.catalog_mag_limit`
  read inside `matchStarsResiduals`;
* `minimize4` and `minimizeP` abstract `scipy.optimize.minimize`
  (Nelder-Mead) over the 4-parameter pointing group and over a
  distortion polynomial respectively, returning the refined parameters
  and the convergence flag `res.success`;
* `jdOf` abstracts `date2JD(FFfile.getMiddleTimeFF(ff_name, fps))`,
  mapping an (opaque) FF file name to a Julian date;
* `sampleSeed` is the state of the global `random` generator consumed
  by `random.sample`;
* `catalog_stars` is the catalog loaded by `BSC.readBSC`. -/
structure Ext where
  XY2CorrectedRADecPP : ℝ → ℝ → ℝ → Platepar → ℝ × ℝ
  subsetCatalog : List CatStar → ℝ → ℝ → ℝ → ℝ → List CatStar
  raDecToCorrectedXYPP : ℝ → ℝ → ℝ → Platepar → ℝ × ℝ
  catalog_mag_limit : ℝ
  minimize4 : ((ℝ × ℝ × ℝ × ℝ) → ℝ) → (ℝ × ℝ × ℝ × ℝ) → (ℝ × ℝ × ℝ × ℝ) × Bool
  minimizeP : (List ℝ → ℝ) → List ℝ → List ℝ × Bool
  jdOf : ℕ → ℝ
  sampleSeed : ℕ
  catalog_stars : List CatStar

/-- Euclidean pixel distance between an image star at (x, y) =
(`im_x`, `im_y`) and a projected catalog star at (`cat_x`, `cat_y`):
`np.sqrt((im_star_x - cat_x)**2 + (im_star_y - cat_y)**2)`. -/
noncomputable def starDist (im_y im_x cat_x cat_y : ℝ) : ℝ :=
  Real.sqrt ((im_x - cat_x) ^ 2 + (im_y - cat_y) ^ 2)

/-- Modelled from the spec: one step of the best-candidate scan of the
compiled `matchStars` primitive (the primitive itself is not part of
the sources; its algorithm is given by spec section 4.1 and by the
reference loop kept in comments in `matchStarsResiduals`).  The source
tracks `min_dist` starting at infinity together with `cat_match_indx`
starting at `None`; here the two are fused into one `Option`, `none`
standing for the (infinity, None) start, and a finite candidate always
beats the infinite start.  A new candidate replaces the current best
only when its distance is strictly smaller, so on ties the candidate
seen first is kept. -/
noncomputable def stepBM (im_y im_x : ℝ) (cat_x cat_y : List ℝ)
    (best : Option (ℕ × ℝ)) (k : ℕ) : Option (ℕ × ℝ) :=
  let d := starDist im_y im_x (cat_x.getD k 0) (cat_y.getD k 0)
  match best with
  | none => some (k, d)
  | some (k0, d0) => if d < d0 then some (k, d) else some (k0, d0)

/-- Modelled from the spec: the inner scan of `matchStars` over the
in-bounds catalog indices, returning the best catalog candidate for
one image star together with its distance (`cat_match_indx`,
`min_dist`), or `none` when there is no candidate. -/
noncomputable def bestMatch (im_y im_x : ℝ) (cat_x cat_y : List ℝ)
    (good : List ℕ) : Option (ℕ × ℝ) :=
  good.foldl (stepBM im_y im_x cat_x cat_y) none

/-- Modelled from the spec: the compiled `matchStars` primitive.  For
each image star (enumerated by position `i`) the best in-bounds
catalog candidate is sought; the pair `(i, cat_match_indx, min_dist)`
is kept only when `min_dist < max_radius` (strictly). -/
noncomputable def matchStars (stars_list : List StarEntry)
    (cat_x cat_y : List ℝ) (cat_good_indices : List ℕ)
    (max_radius : ℝ) : List (ℕ × ℕ × ℝ) :=
  stars_list.enum.filterMap (fun p =>
    match bestMatch p.2.1 p.2.2.1 cat_x cat_y cat_good_indices with
    | none => none
    | some (k, d) => if d < max_radius then some (p.1, k, d) else none)

/-- Field-of-view radius estimated at the top of
`matchStarsResiduals`: with `x_scale = 384.0/X_res/F_scale` and
`y_scale = 288.0/Y_res/F_scale`, the width `x_scale*X_res` and height
`y_scale*Y_res`, the radius is the half-diagonal of that field. -/
noncomputable def fovRadius (pp : Platepar) : ℝ :=
  let x_scale := 384 / pp.X_res / pp.F_scale
  let y_scale := 288 / pp.Y_res / pp.F_scale
  let fov_w := x_scale * pp.X_res
  let fov_h := y_scale * pp.Y_res
  Real.sqrt ((fov_w / 2) ^ 2 + (fov_h / 2) ^ 2)

/-- Half-diagonal formula in the words of the specification sentence
for the field radius: computed from the calibration's own image
resolution and plate scale,
`sqrt((width/(2*scale))^2 + (height/(2*scale))^2)`.  Used only to
compare the specified radius with the one the source computes. -/
noncomputable def specHalfDiagonal (pp : Platepar) : ℝ :=
  Real.sqrt ((pp.X_res / (2 * pp.F_scale)) ^ 2
    + (pp.Y_res / (2 * pp.F_scale)) ^ 2)

/-- Indices of the projected catalog stars that fall inside
`[0, X_res) x [0, Y_res)`:
`intersect1d(argwhere(0 <= x < X_res), argwhere(0 <= y < Y_res))`,
which yields the qualifying indices in ascending catalog order. -/
noncomputable def goodIndices (cat_x cat_y : List ℝ) (n : ℕ)
    (X_res Y_res : ℝ) : List ℕ :=
  (List.range n).filter
    (fun k => decide (0 ≤ cat_x.getD k 0 ∧ cat_x.getD k 0 < X_res
      ∧ 0 ≤ cat_y.getD k 0 ∧ cat_y.getD k 0 < Y_res))

/-- Per-exposure body of the loop of `matchStarsResiduals`: estimate
the sky position of the image centre, query the catalog subset around
it, project the retained catalog stars, keep the indices whose
projection lies inside `[0, X_res) x [0, Y_res)` (the filter over
`range` yields them in ascending catalog order, as `intersect1d`
does), and run the matcher. -/
noncomputable def exposureDists (E : Ext) (pp : Platepar)
    (catalog_stars : List CatStar) (jd : ℝ) (stars_list : List StarEntry)
    (max_radius : ℝ) : List (ℕ × ℕ × ℝ) :=
  let centre := E.XY2CorrectedRADecPP jd (pp.X_res / 2) (pp.Y_res / 2) pp
  let extracted := E.subsetCatalog catalog_stars centre.1 centre.2
    (fovRadius pp) E.catalog_mag_limit
  let cat_x := extracted.map
    (fun s => (E.raDecToCorrectedXYPP s.1 s.2.1 jd pp).1)
  let cat_y := extracted.map
    (fun s => (E.raDecToCorrectedXYPP s.1 s.2.1 jd pp).2)
  matchStars stars_list cat_x cat_y
    (goodIndices cat_x cat_y extracted.length pp.X_res pp.Y_res) max_radius

/-- Distances contributed by one exposure to the global pool: the
exposure is skipped entirely (`continue`) when its number of matched
pairs is below `min_matched_stars`; otherwise its `dist_list` is
contributed. -/
noncomputable def keptDists (E : Ext) (pp : Platepar)
    (catalog_stars : List CatStar) (jd : ℝ) (stars_list : List StarEntry)
    (max_radius : ℝ) (min_matched_stars : ℕ) : List ℝ :=
  let matched_indices := exposureDists E pp catalog_stars jd stars_list max_radius
  if matched_indices.length < min_matched_stars then []
  else matched_indices.map (fun q => q.2.2)

/-- Pool of accepted pair distances (`global_dist_list`): the source
first builds the `matched_stars` dictionary over the accepted
exposures and then concatenates their `dist_list`s; the two loops are
fused here, preserving order and content (the exposure keys of a
`star_dict` are distinct Julian dates). -/
noncomputable def pooledDists (E : Ext) (pp : Platepar)
    (catalog_stars : List CatStar) (star_dict : List (ℝ × List StarEntry))
    (max_radius : ℝ) (min_matched_stars : ℕ) : List ℝ :=
  match star_dict with
  | [] => []
  | e :: rest =>
      keptDists E pp catalog_stars e.1 e.2 max_radius min_matched_stars
        ++ pooledDists E pp catalog_stars rest max_radius min_matched_stars

/-- Return shape of `matchStarsResiduals`: a bare float (the python
function returns a scalar both on the sentinel path and when
`ret_nmatch` is false) or the `(n_matched, avg_dist, cost)` triple. -/
inductive MSRResult where
  | scalar (cost : ℝ)
  | triple (n_matched : ℕ) (avg_dist : ℝ) (cost : ℝ)

/-- Value an expression gets when the result of `matchStarsResiduals`
is used as a plain cost number. -/
def costOf : MSRResult → ℝ
  | .scalar c => c
  | .triple _ _ c => c

/-- Residual/cost evaluator `matchStarsResiduals`: pool the distances
of the accepted exposures; with an empty pool return the bare sentinel
`9999.0` (before the `ret_nmatch` branch); otherwise return the cost
`avg_dist**2 * (1.0/np.sqrt(n_matched + 1))`, as a triple with the
match count and mean distance when `ret_nmatch` is true. -/
noncomputable def matchStarsResiduals (E : Ext) (platepar : Platepar)
    (catalog_stars : List CatStar) (star_dict : List (ℝ × List StarEntry))
    (max_radius : ℝ) (min_matched_stars : ℕ) (ret_nmatch : Bool) : MSRResult :=
  let global_dist_list := pooledDists E platepar catalog_stars star_dict
    max_radius min_matched_stars
  let n_matched := global_dist_list.length
  if n_matched = 0 then .scalar 9999
  else
    let avg_dist := global_dist_list.sum / (n_matched : ℝ)
    let cost := avg_dist ^ 2 * (1 / Real.sqrt ((n_matched : ℝ) + 1))
    if ret_nmatch then .triple n_matched avg_dist cost else .scalar cost

/-- Overwrite of the four pointing/scale parameters performed by
`_calcImageResidualsAstro` on its platepar copy and by `autoCheckFit`
after a successful 4-parameter fit. -/
def applyAstro (pp : Platepar) (params : ℝ × ℝ × ℝ × ℝ) : Platepar :=
  match params with
  | (ra_ref, dec_ref, pos_angle_ref, F_scale) =>
    { pp with
      RA_d := ra_ref
      dec_d := dec_ref
      pos_angle_ref := pos_angle_ref
      F_scale := F_scale }

/-- Distortion axis selector (the `dimension` argument). -/
inductive Dim where
  | x
  | y
deriving DecidableEq

/-- Wrapper `_calcImageResidualsAstro`: set the four trial parameters
on a copy of the platepar and evaluate the scalar cost (default
`ret_nmatch=False`).  The caller's record is a Lean value, hence
untouched; the object-store version below makes the deep copy
explicit. -/
noncomputable def calcImageResidualsAstro (E : Ext) (params : ℝ × ℝ × ℝ × ℝ)
    (platepar : Platepar) (catalog_stars : List CatStar)
    (star_dict : List (ℝ × List StarEntry)) (max_radius : ℝ)
    (min_matched_stars : ℕ) : ℝ :=
  costOf (matchStarsResiduals E (applyAstro platepar params) catalog_stars
    star_dict max_radius min_matched_stars false)

/-- Wrapper `_calcImageResidualsDistorsion`: set the trial distortion
polynomial of the selected axis on a copy of the platepar and evaluate
the scalar cost. -/
noncomputable def calcImageResidualsDistorsion (E : Ext) (params : List ℝ)
    (platepar : Platepar) (catalog_stars : List CatStar)
    (star_dict : List (ℝ × List StarEntry)) (max_radius : ℝ)
    (min_matched_stars : ℕ) (dimension : Dim) : ℝ :=
  costOf (matchStarsResiduals E
    (match dimension with
     | .x => { platepar with x_poly := params }
     | .y => { platepar with y_poly := params })
    catalog_stars star_dict max_radius min_matched_stars false)

/-- Minimizer call of the 4-parameter pointing/scale fit of one radius
stage, seeded at the current platepar values. -/
noncomputable def astroFit (E : Ext) (cfg : Config)
    (catalog_stars : List CatStar) (star_dict : List (ℝ × List StarEntry))
    (max_radius : ℝ) (pp : Platepar) : (ℝ × ℝ × ℝ × ℝ) × Bool :=
  E.minimize4
    (fun params => calcImageResidualsAstro E params pp catalog_stars
      star_dict max_radius cfg.min_matched_stars)
    (pp.RA_d, pp.dec_d, pp.pos_angle_ref, pp.F_scale)

/-- Minimizer call of one distortion-axis fit of one radius stage,
seeded at the current coefficients of that axis. -/
noncomputable def distFit (E : Ext) (cfg : Config)
    (catalog_stars : List CatStar) (star_dict : List (ℝ × List StarEntry))
    (max_radius : ℝ) (pp : Platepar) (dimension : Dim) : List ℝ × Bool :=
  E.minimizeP
    (fun params => calcImageResidualsDistorsion E params pp catalog_stars
      star_dict max_radius cfg.min_matched_stars dimension)
    (match dimension with | .x => pp.x_poly | .y => pp.y_poly)

/-- Outcome of one radius stage of `autoCheckFit`: `crash` when the
with-count destructuring fails (bare-scalar return of the evaluator),
`abort pp` when a `return platepar, False` is taken with the platepar
as updated so far, `ok pp` when the stage completes. -/
inductive StageRes where
  | crash
  | abort (pp : Platepar)
  | ok (pp : Platepar)

/-- One radius stage (body of the `for max_radius in radius_list`
loop): evaluate the with-count statistics, abort when the matched
count is below `calstars_files_N`, then run the 4-parameter fit and
the two distortion fits, aborting on the first non-converged fit and
applying each converged fit's parameters. -/
noncomputable def runStage (E : Ext) (cfg : Config)
    (catalog_stars : List CatStar) (star_dict : List (ℝ × List StarEntry))
    (pp : Platepar) (max_radius : ℝ) : StageRes :=
  match matchStarsResiduals E pp catalog_stars star_dict max_radius
    cfg.min_matched_stars true with
  | .scalar _ => .crash
  | .triple n_matched _ _ =>
    if n_matched < cfg.calstars_files_N then .abort pp
    else
      let res4 := astroFit E cfg catalog_stars star_dict max_radius pp
      if res4.2 then
        let pp1 := applyAstro pp res4.1
        let resx := distFit E cfg catalog_stars star_dict max_radius pp1 .x
        if resx.2 then
          let pp2 := { pp1 with x_poly := resx.1 }
          let resy := distFit E cfg catalog_stars star_dict max_radius pp2 .y
          if resy.2 then .ok { pp2 with y_poly := resy.1 }
          else .abort pp2
        else .abort pp1
      else .abort pp

/-- Convergence of every minimizer call of one radius stage: the
4-parameter fit and then, on the states it produces, the X and Y
distortion fits all report success. -/
noncomputable def StageConverged (E : Ext) (cfg : Config)
    (catalog_stars : List CatStar) (star_dict : List (ℝ × List StarEntry))
    (max_radius : ℝ) (pp : Platepar) : Prop :=
  let res4 := astroFit E cfg catalog_stars star_dict max_radius pp
  res4.2 = true ∧
  (let pp1 := applyAstro pp res4.1
   let resx := distFit E cfg catalog_stars star_dict max_radius pp1 .x
   resx.2 = true ∧
   (let pp2 := { pp1 with x_poly := resx.1 }
    let resy := distFit E cfg catalog_stars star_dict max_radius pp2 .y
    resy.2 = true))

/-- Radius loop of `autoCheckFit` over the remaining radii, followed
by the final with-count evaluation (the source reuses the loop
variable `max_radius`, which after the loop holds the last scheduled
radius, 0.75).  A `crash` or a bare-scalar final return is the
`none` outcome (the python run raises instead of returning). -/
noncomputable def acfLoop (E : Ext) (cfg : Config)
    (catalog_stars : List CatStar) (star_dict : List (ℝ × List StarEntry)) :
    Platepar → List ℝ → Option (Platepar × Bool)
  | pp, [] =>
    match matchStarsResiduals E pp catalog_stars star_dict (0.75 : ℝ)
      cfg.min_matched_stars true with
    | .scalar _ => none
    | .triple _ _ _ => some (pp, true)
  | pp, r :: rs =>
    match runStage E cfg catalog_stars star_dict pp r with
    | .crash => none
    | .abort pp2 => some (pp2, false)
    | .ok pp2 => acfLoop E cfg catalog_stars star_dict pp2 rs

/-- Qualifying-exposure pool (`star_dict`): the CALSTARS entries with
at least `ff_min_stars` stars, keyed by the Julian date of their FF
file (file names are opaque tokens here). -/
def qualifying (cfg : Config) (jdOf : ℕ → ℝ)
    (calstars_list : List (ℕ × List StarEntry)) : List (ℝ × List StarEntry) :=
  (calstars_list.filter (fun e => cfg.ff_min_stars ≤ e.2.length)).map
    (fun e => (jdOf e.1, e.2))

/-- Modelled from the spec: Python's `random.sample(population, k)` on
a mapping, which draws `k` distinct keys.  The source consumes the
implicit global generator; the specification requires the selection to
be a deterministic function of an explicit generator state, realized
here as a rotation of the pool determined by that state followed by
taking the first `k` entries (`k` distinct entries of the pool,
reproducible for a fixed state). -/
def randomSample {β : Type} (seed : ℕ) (pool : List β) (k : ℕ) : List β :=
  (pool.rotate seed).take k

/-- Sampling step of `autoCheckFit` (the lines guarding and performing
`random.sample`): `none` models the `return platepar, False` taken
when fewer than `calstars_files_N` exposures qualify; otherwise
exactly `calstars_files_N` exposures are drawn.  The source samples
keys and rebuilds the dictionary; with distinct keys this equals
sampling the entries directly, as done here. -/
def sampleStage (cfg : Config) (seed : ℕ)
    (star_dict : List (ℝ × List StarEntry)) :
    Option (List (ℝ × List StarEntry)) :=
  if star_dict.length < cfg.calstars_files_N then none
  else some (randomSample seed star_dict cfg.calstars_files_N)

/-- Refinement controller `autoCheckFit`.  `none` models a crashed run
(unpacking the bare-scalar return of the evaluator); `some (pp, flag)`
models `return platepar, flag`. -/
noncomputable def autoCheckFit (E : Ext) (cfg : Config) (platepar : Platepar)
    (calstars_list : List (ℕ × List StarEntry)) : Option (Platepar × Bool) :=
  let star_dict0 := qualifying cfg E.jdOf calstars_list
  match sampleStage cfg E.sampleSeed star_dict0 with
  | none => some (platepar, false)
  | some star_dict =>
    let total_calstars := (star_dict.map (fun e => e.2.length)).sum
    if total_calstars < cfg.calstars_min_stars then some (platepar, false)
    else acfLoop E cfg E.catalog_stars star_dict platepar
      [(3 : ℝ), (1.5 : ℝ), (0.75 : ℝ)]

/-- Store of platepar objects, modelling python object identity:
references are numbers below `next`, `mem` gives each reference's
current record.  It makes the `copy.deepcopy` of the per-evaluation
wrappers observable: an aliasing implementation would write through
the caller's reference, a copying one writes a fresh reference. -/
structure PlateparStore where
  mem : ℕ → Platepar
  next : ℕ

/-- Record currently held by a reference. -/
def readRef (h : PlateparStore) (r : ℕ) : Platepar := h.mem r

/-- Field assignment through a reference. -/
def writeRef (h : PlateparStore) (r : ℕ) (v : Platepar) : PlateparStore :=
  { mem := fun q => if q = r then v else h.mem q, next := h.next }

/-- Allocation of `copy.deepcopy(platepar)`: a fresh reference holding
the same record. -/
def deepcopy (h : PlateparStore) (r : ℕ) : ℕ × PlateparStore :=
  (h.next,
   { mem := fun q => if q = h.next then h.mem r else h.mem q
     next := h.next + 1 })

/-- Object-store version of `_calcImageResidualsAstro`: deep-copy the
caller's platepar, set the four trial parameters on the copy, and
evaluate; returns the cost and the store after the evaluation. -/
noncomputable def calcImageResidualsAstroRef (E : Ext) (params : ℝ × ℝ × ℝ × ℝ)
    (platepar : ℕ) (h : PlateparStore) (catalog_stars : List CatStar)
    (star_dict : List (ℝ × List StarEntry)) (max_radius : ℝ)
    (min_matched_stars : ℕ) : ℝ × PlateparStore :=
  let alloc := deepcopy h platepar
  let pp := alloc.1
  let h1 := alloc.2
  let h2 := writeRef h1 pp (applyAstro (readRef h1 pp) params)
  (costOf (matchStarsResiduals E (readRef h2 pp) catalog_stars star_dict
    max_radius min_matched_stars false), h2)

/-- Object-store version of `_calcImageResidualsDistorsion`. -/
noncomputable def calcImageResidualsDistorsionRef (E : Ext) (params : List ℝ)
    (platepar : ℕ) (h : PlateparStore) (catalog_stars : List CatStar)
    (star_dict : List (ℝ × List StarEntry)) (max_radius : ℝ)
    (min_matched_stars : ℕ) (dimension : Dim) : ℝ × PlateparStore :=
  let alloc := deepcopy h platepar
  let pp := alloc.1
  let h1 := alloc.2
  let h2 := writeRef h1 pp
    (match dimension with
     | .x => { readRef h1 pp with x_poly := params }
     | .y => { readRef h1 pp with y_poly := params })
  (costOf (matchStarsResiduals E (readRef h2 pp) catalog_stars star_dict
    max_radius min_matched_stars false), h2)

/-- Distance of one image star to the catalog candidate `k`. -/
noncomputable def candDist (im_y im_x : ℝ) (cat_x cat_y : List ℝ) (k : ℕ) : ℝ :=
  starDist im_y im_x (cat_x.getD k 0) (cat_y.getD k 0)

theorem stepBM_none (im_y im_x : ℝ) (cat_x cat_y : List ℝ) (a : ℕ) :
    stepBM im_y im_x cat_x cat_y none a =
      some (a, candDist im_y im_x cat_x cat_y a) := rfl

theorem stepBM_some (im_y im_x : ℝ) (cat_x cat_y : List ℝ) (k0 : ℕ) (d0 : ℝ)
    (a : ℕ) :
    stepBM im_y im_x cat_x cat_y (some (k0, d0)) a =
      if candDist im_y im_x cat_x cat_y a < d0
      then some (a, candDist im_y im_x cat_x cat_y a) else some (k0, d0) := rfl

/-- The candidate scan started from an already-seen best never loses
track: its result stays `some`. -/
theorem foldlBM_isSome (im_y im_x : ℝ) (cat_x cat_y : List ℝ) :
    ∀ (good : List ℕ) (p : ℕ × ℝ),
      (good.foldl (stepBM im_y im_x cat_x cat_y) (some p)).isSome = true := by
  intro good
  induction good with
  | nil => intro p; rfl
  | cons a rest ih =>
    intro p
    obtain ⟨k0, d0⟩ := p
    rw [List.foldl_cons, stepBM_some]
    by_cases h : candDist im_y im_x cat_x cat_y a < d0
    · rw [if_pos h]; exact ih _
    · rw [if_neg h]; exact ih _

/-- Invariant of the candidate scan: starting from best `(k0, d0)`,
the final best distance is a lower bound of `d0` and of every scanned
candidate, and the final best is either the unchanged start or the
first candidate that strictly beat the start and every candidate
before itself. -/
theorem foldlBM_some (im_y im_x : ℝ) (cat_x cat_y : List ℝ) :
    ∀ (good : List ℕ) (k0 : ℕ) (d0 : ℝ) (k : ℕ) (d : ℝ),
      good.foldl (stepBM im_y im_x cat_x cat_y) (some (k0, d0)) = some (k, d) →
      (d ≤ d0 ∧ ∀ m ∈ good, d ≤ candDist im_y im_x cat_x cat_y m) ∧
      ((k = k0 ∧ d = d0) ∨
        ∃ pre post, good = pre ++ k :: post
          ∧ d = candDist im_y im_x cat_x cat_y k ∧ d < d0
          ∧ ∀ m ∈ pre, d < candDist im_y im_x cat_x cat_y m) := by
  intro good
  induction good with
  | nil =>
    intro k0 d0 k d h
    rw [List.foldl_nil, Option.some_inj, Prod.mk.injEq] at h
    obtain ⟨rfl, rfl⟩ := h
    exact ⟨⟨le_refl _, by intro m hm; cases hm⟩, Or.inl ⟨rfl, rfl⟩⟩
  | cons a rest ih =>
    intro k0 d0 k d h
    rw [List.foldl_cons, stepBM_some] at h
    by_cases hlt : candDist im_y im_x cat_x cat_y a < d0
    · rw [if_pos hlt] at h
      obtain ⟨⟨hda, hrest⟩, hcase⟩ := ih a (candDist im_y im_x cat_x cat_y a) k d h
      refine ⟨⟨le_of_lt (lt_of_le_of_lt hda hlt), ?_⟩, ?_⟩
      · intro m hm
        rcases List.mem_cons.mp hm with rfl | hm2
        · exact hda
        · exact hrest m hm2
      · rcases hcase with ⟨rfl, rfl⟩ | ⟨pre, post, hsplit, hdk, hdlt, hpre⟩
        · exact Or.inr ⟨[], rest, rfl, rfl, hlt, by intro m hm; cases hm⟩
        · refine Or.inr ⟨a :: pre, post, by rw [hsplit]; rfl, hdk,
            lt_of_lt_of_le (lt_of_lt_of_le hdlt (le_of_lt hlt)) (le_refl _), ?_⟩
          intro m hm
          rcases List.mem_cons.mp hm with rfl | hm2
          · exact lt_of_lt_of_le hdlt (le_refl _)
          · exact hpre m hm2
    · rw [if_neg hlt] at h
      obtain ⟨⟨hdd0, hrest⟩, hcase⟩ := ih k0 d0 k d h
      have hd0a : d0 ≤ candDist im_y im_x cat_x cat_y a := le_of_not_lt hlt
      refine ⟨⟨hdd0, ?_⟩, ?_⟩
      · intro m hm
        rcases List.mem_cons.mp hm with rfl | hm2
        · exact le_trans hdd0 hd0a
        · exact hrest m hm2
      · rcases hcase with hleft | ⟨pre, post, hsplit, hdk, hdlt, hpre⟩
        · exact Or.inl hleft
        · refine Or.inr ⟨a :: pre, post, by rw [hsplit]; rfl, hdk, hdlt, ?_⟩
          intro m hm
          rcases List.mem_cons.mp hm with rfl | hm2
          · exact lt_of_lt_of_le hdlt hd0a
          · exact hpre m hm2

/-- The best candidate is `none` exactly for an empty candidate list. -/
theorem bestMatch_eq_none (im_y im_x : ℝ) (cat_x cat_y : List ℝ)
    (good : List ℕ) :
    bestMatch im_y im_x cat_x cat_y good = none ↔ good = [] := by
  constructor
  · intro h
    cases good with
    | nil => rfl
    | cons a rest =>
      exfalso
      have hs := foldlBM_isSome im_y im_x cat_x cat_y rest
        (a, candDist im_y im_x cat_x cat_y a)
      rw [bestMatch, List.foldl_cons, stepBM_none] at h
      rw [h] at hs
      exact Bool.noConfusion hs
  · intro h; rw [h]; rfl

/-- Characterization of the matcher's per-star scan: a returned best
`(k, d)` carries the distance of candidate `k`, is a minimum over all
candidates, and `k` is the first candidate attaining it (every
candidate strictly before `k` in scan order is strictly farther). -/
theorem bestMatch_spec (im_y im_x : ℝ) (cat_x cat_y : List ℝ)
    (good : List ℕ) (k : ℕ) (d : ℝ)
    (h : bestMatch im_y im_x cat_x cat_y good = some (k, d)) :
    d = candDist im_y im_x cat_x cat_y k
    ∧ (∀ m ∈ good, d ≤ candDist im_y im_x cat_x cat_y m)
    ∧ ∃ pre post, good = pre ++ k :: post
        ∧ ∀ m ∈ pre, d < candDist im_y im_x cat_x cat_y m := by
  cases good with
  | nil => exact absurd h (by rw [bestMatch]; exact fun hx => Option.noConfusion hx)
  | cons a rest =>
    rw [bestMatch, List.foldl_cons, stepBM_none] at h
    obtain ⟨⟨hda, hrest⟩, hcase⟩ := foldlBM_some im_y im_x cat_x cat_y rest a
      (candDist im_y im_x cat_x cat_y a) k d h
    rcases hcase with ⟨rfl, rfl⟩ | ⟨pre, post, hsplit, hdk, hdalt, hpre⟩
    · refine ⟨rfl, ?_, [], rest, rfl, by intro m hm; cases hm⟩
      intro m hm
      rcases List.mem_cons.mp hm with rfl | hm2
      · exact le_refl _
      · exact hrest m hm2
    · refine ⟨hdk, ?_, a :: pre, post, by rw [hsplit]; rfl, ?_⟩
      · intro m hm
        rcases List.mem_cons.mp hm with rfl | hm2
        · exact hda
        · exact hrest m hm2
      · intro m hm
        rcases List.mem_cons.mp hm with rfl | hm2
        · exact hdalt
        · exact hpre m hm2

/-- Membership in the matcher's output: the pair `(i, k, d)` is
produced exactly when the star at position `i` exists, its best
candidate scan returns `(k, d)`, and `d` is strictly below the
matching radius. -/
theorem matchStars_mem (stars_list : List StarEntry) (cat_x cat_y : List ℝ)
    (good : List ℕ) (max_radius : ℝ) (i k : ℕ) (d : ℝ) :
    (i, k, d) ∈ matchStars stars_list cat_x cat_y good max_radius ↔
      ∃ s, stars_list[i]? = some s
        ∧ bestMatch s.1 s.2.1 cat_x cat_y good = some (k, d)
        ∧ d < max_radius := by
  rw [matchStars, List.mem_filterMap]
  constructor
  · rintro ⟨⟨j, s⟩, hmem, hf⟩
    rw [List.mk_mem_enum_iff_getElem?] at hmem
    dsimp only at hf
    split at hf
    · exact Option.noConfusion hf
    · rename_i k2 d2 hbm
      split at hf
      · rename_i hr
        simp only [Option.some_inj, Prod.mk.injEq] at hf
        obtain ⟨rfl, rfl, rfl⟩ := hf
        exact ⟨s, hmem, hbm, hr⟩
      · exact Option.noConfusion hf
  · rintro ⟨s, hget, hbm, hr⟩
    refine ⟨(i, s), List.mk_mem_enum_iff_getElem?.mpr hget, ?_⟩
    dsimp only
    rw [hbm]
    exact if_pos hr

/-- The in-bounds index list is strictly ascending: candidates are
scanned in catalog order. -/
theorem goodIndices_pairwise (cat_x cat_y : List ℝ) (n : ℕ)
    (X_res Y_res : ℝ) :
    (goodIndices cat_x cat_y n X_res Y_res).Pairwise (· < ·) :=
  List.Pairwise.filter _ (List.pairwise_lt_range n)

/-- C2: the Matcher pairs each detected star with the in-bounds
catalog star of minimum Euclidean pixel distance, accepts the pair
only if that minimum distance is strictly below the maximum radius,
lets the same catalog star be claimed by several detected stars, and
resolves ties to the candidate encountered first in the scan, which
runs in ascending catalog order; the Matcher is a pure function, hence
deterministic. -/
theorem c2_matcher_minimum_distance_pairs (stars_list : List StarEntry)
    (cat_x cat_y : List ℝ) (good : List ℕ) (max_radius : ℝ) :
    (∀ i k d,
      (i, k, d) ∈ matchStars stars_list cat_x cat_y good max_radius ↔
        ∃ s, stars_list[i]? = some s
          ∧ bestMatch s.1 s.2.1 cat_x cat_y good = some (k, d)
          ∧ d < max_radius)
    ∧ (∀ im_y im_x k d,
        bestMatch im_y im_x cat_x cat_y good = some (k, d) →
          d = candDist im_y im_x cat_x cat_y k
          ∧ (∀ m ∈ good, d ≤ candDist im_y im_x cat_x cat_y m)
          ∧ ∃ pre post, good = pre ++ k :: post
              ∧ ∀ m ∈ pre, d < candDist im_y im_x cat_x cat_y m)
    ∧ (∀ im_y im_x, good ≠ [] →
        ∃ k d, bestMatch im_y im_x cat_x cat_y good = some (k, d))
    ∧ (∀ i1 i2 s1 s2 k d1 d2,
        stars_list[i1]? = some s1 → stars_list[i2]? = some s2 →
        bestMatch s1.1 s1.2.1 cat_x cat_y good = some (k, d1) →
        bestMatch s2.1 s2.2.1 cat_x cat_y good = some (k, d2) →
        d1 < max_radius → d2 < max_radius →
        (i1, k, d1) ∈ matchStars stars_list cat_x cat_y good max_radius
        ∧ (i2, k, d2) ∈ matchStars stars_list cat_x cat_y good max_radius)
    ∧ (∀ n X Y, (goodIndices cat_x cat_y n X Y).Pairwise (· < ·)) := by
  refine ⟨matchStars_mem stars_list cat_x cat_y good max_radius,
    fun im_y im_x k d h => bestMatch_spec im_y im_x cat_x cat_y good k d h,
    ?_, ?_, fun n X Y => goodIndices_pairwise cat_x cat_y n X Y⟩
  · intro im_y im_x hne
    cases hbm : bestMatch im_y im_x cat_x cat_y good with
    | none => exact absurd ((bestMatch_eq_none im_y im_x cat_x cat_y good).mp hbm) hne
    | some p => obtain ⟨k, d⟩ := p; exact ⟨k, d, rfl⟩
  · intro i1 i2 s1 s2 k d1 d2 h1 h2 hb1 hb2 hr1 hr2
    exact ⟨(matchStars_mem stars_list cat_x cat_y good max_radius i1 k d1).mpr
        ⟨s1, h1, hb1, hr1⟩,
      (matchStars_mem stars_list cat_x cat_y good max_radius i2 k d2).mpr
        ⟨s2, h2, hb2, hr2⟩⟩

/-- Witness for C2: one image star at the origin, two catalog
candidates at distance 3 each (a tie); the matcher pairs the star with
candidate 0, the one encountered first, and accepts it at radius 4. -/
theorem c2_matcher_minimum_distance_pairs_witness :
    (0, 0, (3 : ℝ)) ∈ matchStars [((0 : ℝ), 0, 0, 0)] [3, 0] [0, 3] [0, 1] 4 := by
  have hc0 : candDist 0 0 [3, 0] [0, 3] 0 = 3 := by
    rw [candDist, starDist]
    norm_num
    rw [show ((9 : ℝ)) = 3 ^ 2 by norm_num]
    exact Real.sqrt_sq (by norm_num)
  have hc1 : candDist 0 0 [3, 0] [0, 3] 1 = 3 := by
    rw [candDist, starDist]
    norm_num
    rw [show ((9 : ℝ)) = 3 ^ 2 by norm_num]
    exact Real.sqrt_sq (by norm_num)
  have hbm : bestMatch 0 0 [3, 0] [0, 3] [0, 1] = some (0, 3) := by
    rw [bestMatch, List.foldl_cons, stepBM_none, hc0, List.foldl_cons,
      stepBM_some, hc1, if_neg (lt_irrefl (3 : ℝ)), List.foldl_nil]
  exact ((c2_matcher_minimum_distance_pairs [((0 : ℝ), 0, 0, 0)] [3, 0] [0, 3]
    [0, 1] 4).1 0 0 3).mpr ⟨((0 : ℝ), 0, 0, 0), rfl, hbm, by norm_num⟩

/-- Pointwise-stronger `filterMap` functions give sublists. -/
theorem filterMap_sublist_of_imp {α β : Type} (l : List α)
    (f g : α → Option β) (h : ∀ a b, f a = some b → g a = some b) :
    (l.filterMap f).Sublist (l.filterMap g) := by
  induction l with
  | nil => exact List.nil_sublist _
  | cons a rest ih =>
    rw [List.filterMap_cons, List.filterMap_cons]
    cases hf : f a with
    | none =>
      cases hg : g a with
      | none => exact ih
      | some b => exact ih.cons b
    | some b =>
      rw [h a b hf]
      exact ih.cons₂ b

/-- Widening the radius only adds accepted pairs: the matcher's output
at radius `r1 <= r2` is a sublist of its output at `r2`. -/
theorem matchStars_radius_sublist (stars_list : List StarEntry)
    (cat_x cat_y : List ℝ) (good : List ℕ) {r1 r2 : ℝ} (h : r1 ≤ r2) :
    (matchStars stars_list cat_x cat_y good r1).Sublist
      (matchStars stars_list cat_x cat_y good r2) := by
  rw [matchStars, matchStars]
  apply filterMap_sublist_of_imp
  intro p b hf
  dsimp only at hf ⊢
  split at hf
  · exact Option.noConfusion hf
  · rename_i k d hbm
    split at hf
    · rename_i hr
      rw [if_pos (lt_of_lt_of_le hr h)]
      exact hf
    · exact Option.noConfusion hf

/-- Radius monotonicity of one exposure's accepted pairs. -/
theorem exposureDists_radius_sublist (E : Ext) (pp : Platepar)
    (catalog_stars : List CatStar) (jd : ℝ) (stars_list : List StarEntry)
    {r1 r2 : ℝ} (h : r1 ≤ r2) :
    (exposureDists E pp catalog_stars jd stars_list r1).Sublist
      (exposureDists E pp catalog_stars jd stars_list r2) :=
  matchStars_radius_sublist _ _ _ _ h

/-- Radius monotonicity of one exposure's pooled contribution: an
exposure accepted at the smaller radius is accepted at the larger one,
and contributes a sublist of distances. -/
theorem keptDists_radius_sublist (E : Ext) (pp : Platepar)
    (catalog_stars : List CatStar) (jd : ℝ) (stars_list : List StarEntry)
    (m : ℕ) {r1 r2 : ℝ} (h : r1 ≤ r2) :
    (keptDists E pp catalog_stars jd stars_list r1 m).Sublist
      (keptDists E pp catalog_stars jd stars_list r2 m) := by
  have hsub := exposureDists_radius_sublist E pp catalog_stars jd stars_list h
  rw [keptDists, keptDists]
  by_cases h1 : (exposureDists E pp catalog_stars jd stars_list r1).length < m
  · rw [if_pos h1]
    exact List.nil_sublist _
  · rw [if_neg h1,
      if_neg (fun hc => h1 (lt_of_le_of_lt hsub.length_le hc))]
    exact hsub.map _

/-- Radius monotonicity of the pooled distance list. -/
theorem pooledDists_radius_sublist (E : Ext) (pp : Platepar)
    (catalog_stars : List CatStar) (star_dict : List (ℝ × List StarEntry))
    (m : ℕ) {r1 r2 : ℝ} (h : r1 ≤ r2) :
    (pooledDists E pp catalog_stars star_dict r1 m).Sublist
      (pooledDists E pp catalog_stars star_dict r2 m) := by
  induction star_dict with
  | nil => exact List.nil_sublist _
  | cons e rest ih =>
    rw [pooledDists, pooledDists]
    exact List.Sublist.append
      (keptDists_radius_sublist E pp catalog_stars e.1 e.2 m h) ih

/-- C3: with calibration, catalog, exposures and threshold fixed,
growing the matching radius never loses matches: the accepted pairs at
`r1 <= r2` are a sublist of those at `r2`, per exposure in the Matcher
and for the pooled distances of the cost evaluator, so the pooled
matched-star count never decreases. -/
theorem c3_radius_monotone (r1 r2 : ℝ) (h : r1 ≤ r2) :
    (∀ (stars_list : List StarEntry) (cat_x cat_y : List ℝ) (good : List ℕ),
      (matchStars stars_list cat_x cat_y good r1).Sublist
        (matchStars stars_list cat_x cat_y good r2))
    ∧ (∀ (E : Ext) (pp : Platepar) (catalog_stars : List CatStar) (jd : ℝ)
        (stars_list : List StarEntry),
        (exposureDists E pp catalog_stars jd stars_list r1).Sublist
          (exposureDists E pp catalog_stars jd stars_list r2))
    ∧ (∀ (E : Ext) (pp : Platepar) (catalog_stars : List CatStar)
        (star_dict : List (ℝ × List StarEntry)) (m : ℕ),
        (pooledDists E pp catalog_stars star_dict r1 m).Sublist
          (pooledDists E pp catalog_stars star_dict r2 m)
        ∧ (pooledDists E pp catalog_stars star_dict r1 m).length
            ≤ (pooledDists E pp catalog_stars star_dict r2 m).length) :=
  ⟨fun stars_list cat_x cat_y good =>
      matchStars_radius_sublist stars_list cat_x cat_y good h,
    fun E pp cat jd stars => exposureDists_radius_sublist E pp cat jd stars h,
    fun E pp cat sd m =>
      ⟨pooledDists_radius_sublist E pp cat sd m h,
        (pooledDists_radius_sublist E pp cat sd m h).length_le⟩⟩

/-- Concrete external collaborators for witnesses: the image centre
maps to the sky origin, the catalog subset is the whole catalog, a
catalog star (ra, dec, mag) projects to pixel (ra, dec), and both
minimizers report non-convergence, echoing their seed. -/
def E0 : Ext where
  XY2CorrectedRADecPP := fun _ _ _ _ => (0, 0)
  subsetCatalog := fun catalog _ _ _ _ => catalog
  raDecToCorrectedXYPP := fun ra dec _ _ => (ra, dec)
  catalog_mag_limit := 10
  minimize4 := fun _ p0 => (p0, false)
  minimizeP := fun _ p0 => (p0, false)
  jdOf := fun _ => 0
  sampleSeed := 0
  catalog_stars := []

/-- Concrete calibration for witnesses: 1000 x 1000 pixels, scale 1. -/
def pp0 : Platepar where
  RA_d := 0
  dec_d := 0
  pos_angle_ref := 0
  F_scale := 1
  x_poly := []
  y_poly := []
  X_res := 1000
  Y_res := 1000

theorem candDist_one_one : candDist 1 1 [(1 : ℝ)] [(1 : ℝ)] 0 = 0 := by
  rw [candDist, starDist]
  simp only [List.getD_cons_zero]
  rw [show ((1 : ℝ) - 1) ^ 2 + ((1 : ℝ) - 1) ^ 2 = 0 by norm_num, Real.sqrt_zero]

theorem goodIndices_eval :
    goodIndices [(1 : ℝ)] [(1 : ℝ)] 1 1000 1000 = [0] := by
  rw [goodIndices, show List.range 1 = [0] from rfl, List.filter_cons,
    List.filter_nil]
  rw [if_pos (decide_eq_true (by
    simp only [List.getD_cons_zero]
    norm_num))]

theorem matchStars_eval :
    matchStars [((1 : ℝ), 1, 0, 0)] [(1 : ℝ)] [(1 : ℝ)] [0] 3 = [(0, 0, 0)] := by
  have hbm : bestMatch 1 1 [(1 : ℝ)] [(1 : ℝ)] [0] = some (0, 0) := by
    rw [bestMatch, List.foldl_cons, stepBM_none, candDist_one_one,
      List.foldl_nil]
  have henum : ([((1 : ℝ), 1, 0, 0)] : List StarEntry).enum
      = [(0, ((1 : ℝ), 1, 0, 0))] := rfl
  rw [matchStars, henum, List.filterMap_cons, List.filterMap_nil]
  dsimp only
  rw [hbm]
  dsimp only
  rw [if_pos (by norm_num : (0 : ℝ) < 3)]

theorem exposureDists_eval :
    exposureDists E0 pp0 [((1 : ℝ), 1, 0)] 0 [((1 : ℝ), 1, 0, 0)] 3
      = [(0, 0, 0)] := by
  rw [exposureDists]
  dsimp only [E0, pp0, List.map_cons, List.map_nil, List.length_cons,
    List.length_nil]
  rw [goodIndices_eval, matchStars_eval]

theorem pooledDists_eval :
    pooledDists E0 pp0 [((1 : ℝ), 1, 0)] [((0 : ℝ), [((1 : ℝ), 1, 0, 0)])] 3 1
      = [0] := by
  rw [pooledDists, pooledDists, keptDists]
  dsimp only
  rw [exposureDists_eval]
  rw [if_neg (by norm_num : ¬ ([((0 : ℕ), (0 : ℕ), (0 : ℝ))]).length < 1)]
  rw [List.map_cons, List.map_nil, List.append_nil]

theorem msr_eval :
    matchStarsResiduals E0 pp0 [((1 : ℝ), 1, 0)]
      [((0 : ℝ), [((1 : ℝ), 1, 0, 0)])] 3 1 true = .triple 1 0 0 := by
  rw [matchStarsResiduals]
  dsimp only
  rw [pooledDists_eval]
  rw [if_neg (by norm_num : ¬ ([(0 : ℝ)]).length = 0)]
  rw [if_pos rfl]
  norm_num

/-- Witness for C3: radii 1 and 2 on a concrete matcher input and a
concrete evaluator input; the pooled matched-star count does not
decrease. -/
theorem c3_radius_monotone_witness :
    (matchStars [((0 : ℝ), 0, 0, 0)] [3, 0] [0, 3] [0, 1] 1).Sublist
      (matchStars [((0 : ℝ), 0, 0, 0)] [3, 0] [0, 3] [0, 1] 2)
    ∧ (pooledDists E0 pp0 [((1 : ℝ), 1, 0)] [((0 : ℝ), [((1 : ℝ), 1, 0, 0)])]
        1 1).length
      ≤ (pooledDists E0 pp0 [((1 : ℝ), 1, 0)]
          [((0 : ℝ), [((1 : ℝ), 1, 0, 0)])] 2 1).length :=
  ⟨(c3_radius_monotone 1 2 (by norm_num)).1 [((0 : ℝ), 0, 0, 0)] [3, 0]
      [0, 3] [0, 1],
    ((c3_radius_monotone 1 2 (by norm_num)).2.2 E0 pp0 [((1 : ℝ), 1, 0)]
      [((0 : ℝ), [((1 : ℝ), 1, 0, 0)])] 1).2⟩

/-- C1 (amended): the evaluator pools the accepted distances of the
exposures meeting the minimum-matches threshold; on an empty pool it
returns the bare sentinel `9999.0`; otherwise the returned cost is
`mean_distance^2 / sqrt(total_matched_count + 1)`; the cost is always
nonnegative.  (A zero pooled count forces the sentinel, but the
converse fails: a nonzero count can make the formula hit the sentinel
value, see the counterexample.) -/
theorem c1_cost_evaluator (E : Ext) (pp : Platepar)
    (catalog_stars : List CatStar) (star_dict : List (ℝ × List StarEntry))
    (max_radius : ℝ) (min_matched_stars : ℕ) (ret_nmatch : Bool) :
    0 ≤ costOf (matchStarsResiduals E pp catalog_stars star_dict max_radius
      min_matched_stars ret_nmatch)
    ∧ (pooledDists E pp catalog_stars star_dict max_radius min_matched_stars
          = [] →
        matchStarsResiduals E pp catalog_stars star_dict max_radius
          min_matched_stars ret_nmatch = .scalar 9999)
    ∧ (pooledDists E pp catalog_stars star_dict max_radius min_matched_stars
          ≠ [] →
        costOf (matchStarsResiduals E pp catalog_stars star_dict max_radius
            min_matched_stars ret_nmatch)
          = ((pooledDists E pp catalog_stars star_dict max_radius
                min_matched_stars).sum
              / ((pooledDists E pp catalog_stars star_dict max_radius
                  min_matched_stars).length : ℝ)) ^ 2
            / Real.sqrt (((pooledDists E pp catalog_stars star_dict max_radius
                min_matched_stars).length : ℝ) + 1)) := by
  by_cases hgd : pooledDists E pp catalog_stars star_dict max_radius
      min_matched_stars = []
  · have hmsr : matchStarsResiduals E pp catalog_stars star_dict max_radius
        min_matched_stars ret_nmatch = .scalar 9999 := by
      rw [matchStarsResiduals]
      dsimp only
      rw [hgd]
      exact if_pos rfl
    refine ⟨?_, fun _ => hmsr, fun hne => absurd hgd hne⟩
    rw [hmsr]
    norm_num [costOf]
  · have hlen : ¬ (pooledDists E pp catalog_stars star_dict max_radius
        min_matched_stars).length = 0 := by
      simpa [List.length_eq_zero] using hgd
    have hcost : costOf (matchStarsResiduals E pp catalog_stars star_dict
          max_radius min_matched_stars ret_nmatch)
        = ((pooledDists E pp catalog_stars star_dict max_radius
              min_matched_stars).sum
            / ((pooledDists E pp catalog_stars star_dict max_radius
                min_matched_stars).length : ℝ)) ^ 2
          * (1 / Real.sqrt (((pooledDists E pp catalog_stars star_dict
              max_radius min_matched_stars).length : ℝ) + 1)) := by
      rw [matchStarsResiduals]
      dsimp only
      rw [if_neg hlen]
      cases ret_nmatch
      · rw [if_neg (by exact fun h => Bool.noConfusion h)]
        rfl
      · rw [if_pos rfl]
        rfl
    refine ⟨?_, fun h => absurd h hgd, fun _ => by rw [hcost, mul_one_div]⟩
    rw [hcost]
    positivity

/-- Witness for C1: with no exposures the pool is empty, the sentinel
is returned, and the cost is nonnegative. -/
theorem c1_cost_evaluator_witness :
    matchStarsResiduals E0 pp0 [] [] 3 1 true = .scalar 9999
    ∧ 0 ≤ costOf (matchStarsResiduals E0 pp0 [] [] 3 1 true) :=
  ⟨(c1_cost_evaluator E0 pp0 [] [] 3 1 true).2.1 rfl,
    (c1_cost_evaluator E0 pp0 [] [] 3 1 true).1⟩

/-- Counterexample for C1's claimed equivalence: a single matched star
at pixel distance `sqrt(9999 * sqrt 2)` (inside radius 200) makes the
evaluator return a pooled count of 1 with cost exactly `9999.0`, so
`cost = sentinel` does not imply a zero pooled count. -/
theorem c1_cost_sentinel_counterexample :
    matchStarsResiduals E0 pp0 [(Real.sqrt (9999 * Real.sqrt 2), 0, 0)]
      [((0 : ℝ), [((0 : ℝ), 0, 0, 0)])] 200 1 true
      = .triple 1 (Real.sqrt (9999 * Real.sqrt 2)) 9999 := by
  have hd0 : 0 ≤ Real.sqrt (9999 * Real.sqrt 2) := Real.sqrt_nonneg _
  have hs2 : 0 < Real.sqrt 2 := Real.sqrt_pos.mpr (by norm_num)
  have h2lt : Real.sqrt 2 < 2 := by
    rw [Real.sqrt_lt' (by norm_num : (0 : ℝ) < 2)]
    norm_num
  have hdsq : Real.sqrt (9999 * Real.sqrt 2) ^ 2 = 9999 * Real.sqrt 2 :=
    Real.sq_sqrt (by positivity)
  have hdlt200 : Real.sqrt (9999 * Real.sqrt 2) < 200 := by
    rw [Real.sqrt_lt' (by norm_num : (0 : ℝ) < 200)]
    nlinarith
  have hdlt1000 : Real.sqrt (9999 * Real.sqrt 2) < 1000 := by
    rw [Real.sqrt_lt' (by norm_num : (0 : ℝ) < 1000)]
    nlinarith
  have hcd : candDist 0 0 [Real.sqrt (9999 * Real.sqrt 2)] [(0 : ℝ)] 0
      = Real.sqrt (9999 * Real.sqrt 2) := by
    rw [candDist, starDist]
    simp only [List.getD_cons_zero]
    rw [show ((0 : ℝ) - Real.sqrt (9999 * Real.sqrt 2)) ^ 2
        + ((0 : ℝ) - 0) ^ 2 = Real.sqrt (9999 * Real.sqrt 2) ^ 2 by ring]
    exact Real.sqrt_sq hd0
  have hgood : goodIndices [Real.sqrt (9999 * Real.sqrt 2)] [(0 : ℝ)] 1
      1000 1000 = [0] := by
    rw [goodIndices, show List.range 1 = [0] from rfl, List.filter_cons,
      List.filter_nil]
    rw [if_pos (decide_eq_true (by
      simp only [List.getD_cons_zero]
      exact ⟨hd0, hdlt1000, le_refl 0, by norm_num⟩))]
  have hbm : bestMatch 0 0 [Real.sqrt (9999 * Real.sqrt 2)] [(0 : ℝ)] [0]
      = some (0, Real.sqrt (9999 * Real.sqrt 2)) := by
    rw [bestMatch, List.foldl_cons, stepBM_none, hcd, List.foldl_nil]
  have hms : matchStars [((0 : ℝ), 0, 0, 0)]
      [Real.sqrt (9999 * Real.sqrt 2)] [(0 : ℝ)] [0] 200
      = [(0, 0, Real.sqrt (9999 * Real.sqrt 2))] := by
    have henum : ([((0 : ℝ), 0, 0, 0)] : List StarEntry).enum
        = [(0, ((0 : ℝ), 0, 0, 0))] := rfl
    rw [matchStars, henum, List.filterMap_cons, List.filterMap_nil]
    dsimp only
    rw [hbm]
    dsimp only
    rw [if_pos hdlt200]
  have hed : exposureDists E0 pp0 [(Real.sqrt (9999 * Real.sqrt 2), 0, 0)] 0
      [((0 : ℝ), 0, 0, 0)] 200 = [(0, 0, Real.sqrt (9999 * Real.sqrt 2))] := by
    rw [exposureDists]
    dsimp only [E0, pp0, List.map_cons, List.map_nil, List.length_cons,
      List.length_nil]
    rw [hgood, hms]
  have hpool : pooledDists E0 pp0 [(Real.sqrt (9999 * Real.sqrt 2), 0, 0)]
      [((0 : ℝ), [((0 : ℝ), 0, 0, 0)])] 200 1
      = [Real.sqrt (9999 * Real.sqrt 2)] := by
    rw [pooledDists, pooledDists, keptDists]
    dsimp only
    rw [hed]
    rw [if_neg (by norm_num :
      ¬ ([((0 : ℕ), (0 : ℕ), Real.sqrt (9999 * Real.sqrt 2))]).length < 1)]
    rw [List.map_cons, List.map_nil, List.append_nil]
  rw [matchStarsResiduals]
  dsimp only
  rw [hpool]
  rw [if_neg (by norm_num :
    ¬ ([Real.sqrt (9999 * Real.sqrt 2)]).length = 0)]
  rw [if_pos rfl]
  have hsum : ([Real.sqrt (9999 * Real.sqrt 2)]).sum
      = Real.sqrt (9999 * Real.sqrt 2) := by
    rw [List.sum_cons, List.sum_nil, add_zero]
  have hlen : (([Real.sqrt (9999 * Real.sqrt 2)]).length : ℝ) = 1 := by
    norm_num
  rw [hsum, hlen]
  simp only [MSRResult.triple.injEq]
  refine ⟨rfl, div_one _, ?_⟩
  rw [div_one, hdsq, show (1 : ℝ) + 1 = 2 by norm_num]
  rw [mul_one_div, mul_div_assoc, div_self (ne_of_gt hs2), mul_one]

/-- The source's field radius in closed form: the resolution cancels
out of `x_scale*X_res` and `y_scale*Y_res`, leaving the half-diagonal
of a fixed 384 x 288 reference frame divided by the plate scale. -/
theorem fovRadius_eq (pp : Platepar) (hx : pp.X_res ≠ 0) (hy : pp.Y_res ≠ 0) :
    fovRadius pp = Real.sqrt ((384 / (2 * pp.F_scale)) ^ 2
      + (288 / (2 * pp.F_scale)) ^ 2) := by
  rw [fovRadius]
  congr 1
  by_cases hF : pp.F_scale = 0
  · simp [hF]
  · field_simp
    ring

/-- C5 (amended): for nonzero resolutions the catalog-query radius
equals `sqrt((384/(2*F_scale))^2 + (288/(2*F_scale))^2)`, the
half-diagonal of the fixed 384 x 288 reference field at the given
plate scale; it does not depend on the image resolution: calibrations
sharing a plate scale share the radius. -/
theorem c5_fov_radius (pp : Platepar) (hx : pp.X_res ≠ 0)
    (hy : pp.Y_res ≠ 0) :
    fovRadius pp = Real.sqrt ((384 / (2 * pp.F_scale)) ^ 2
      + (288 / (2 * pp.F_scale)) ^ 2)
    ∧ ∀ pp2 : Platepar, pp2.F_scale = pp.F_scale → pp2.X_res ≠ 0 →
        pp2.Y_res ≠ 0 → fovRadius pp2 = fovRadius pp :=
  ⟨fovRadius_eq pp hx hy,
    fun pp2 hF hx2 hy2 => by
      rw [fovRadius_eq pp2 hx2 hy2, fovRadius_eq pp hx hy, hF]⟩

/-- Witness for C5: the concrete 1000 x 1000, scale-1 calibration. -/
theorem c5_fov_radius_witness :
    fovRadius pp0 = Real.sqrt ((384 / (2 * pp0.F_scale)) ^ 2
      + (288 / (2 * pp0.F_scale)) ^ 2) :=
  (c5_fov_radius pp0 (by norm_num [pp0]) (by norm_num [pp0])).1

/-- Reference-resolution calibration (384 x 288, scale 1). -/
def pp384 : Platepar where
  RA_d := 0
  dec_d := 0
  pos_angle_ref := 0
  F_scale := 1
  x_poly := []
  y_poly := []
  X_res := 384
  Y_res := 288

/-- Doubled-resolution calibration (768 x 576, scale 1). -/
def pp768 : Platepar where
  RA_d := 0
  dec_d := 0
  pos_angle_ref := 0
  F_scale := 1
  x_poly := []
  y_poly := []
  X_res := 768
  Y_res := 576

/-- Counterexample for C5: doubling the resolution at a fixed plate
scale leaves the source's radius at 240, whereas the specified
resolution-dependent half-diagonal is 480 there; the radius does not
depend on the image resolution and differs from the specified
formula. -/
theorem c5_fov_radius_counterexample :
    fovRadius pp768 = fovRadius pp384
    ∧ fovRadius pp768 = 240
    ∧ specHalfDiagonal pp768 = 480
    ∧ fovRadius pp768 ≠ specHalfDiagonal pp768 := by
  have h768 : fovRadius pp768 = 240 := by
    rw [fovRadius_eq pp768 (by norm_num [pp768]) (by norm_num [pp768])]
    rw [show (384 / (2 * pp768.F_scale)) ^ 2
        + (288 / (2 * pp768.F_scale)) ^ 2 = (240 : ℝ) ^ 2 by norm_num [pp768]]
    exact Real.sqrt_sq (by norm_num)
  have h384 : fovRadius pp384 = 240 := by
    rw [fovRadius_eq pp384 (by norm_num [pp384]) (by norm_num [pp384])]
    rw [show (384 / (2 * pp384.F_scale)) ^ 2
        + (288 / (2 * pp384.F_scale)) ^ 2 = (240 : ℝ) ^ 2 by norm_num [pp384]]
    exact Real.sqrt_sq (by norm_num)
  have hspec : specHalfDiagonal pp768 = 480 := by
    rw [specHalfDiagonal]
    rw [show (pp768.X_res / (2 * pp768.F_scale)) ^ 2
        + (pp768.Y_res / (2 * pp768.F_scale)) ^ 2 = (480 : ℝ) ^ 2
      by norm_num [pp768]]
    exact Real.sqrt_sq (by norm_num)
  exact ⟨h768.trans h384.symm, h768, hspec,
    by rw [h768, hspec]; norm_num⟩

/-- C4 (amended): a pool smaller than the target aborts the run (the
source has no no-op branch for it); a pool of at least the target size
yields a sample of exactly the target size, drawn from the pool, with
no duplicate keys when the pool has none, deterministic in the
generator state; when the pool size equals the target the sample holds
exactly the pool's entries. -/
theorem c4_sampling (cfg : Config) (seed : ℕ)
    (star_dict : List (ℝ × List StarEntry)) :
    (star_dict.length < cfg.calstars_files_N →
      sampleStage cfg seed star_dict = none)
    ∧ (cfg.calstars_files_N ≤ star_dict.length →
        sampleStage cfg seed star_dict
          = some (randomSample seed star_dict cfg.calstars_files_N)
        ∧ (randomSample seed star_dict cfg.calstars_files_N).length
            = cfg.calstars_files_N
        ∧ (∀ e ∈ randomSample seed star_dict cfg.calstars_files_N,
            e ∈ star_dict)
        ∧ ((star_dict.map Prod.fst).Nodup →
            ((randomSample seed star_dict cfg.calstars_files_N).map
              Prod.fst).Nodup)
        ∧ (star_dict.length = cfg.calstars_files_N →
            ∀ e, e ∈ randomSample seed star_dict cfg.calstars_files_N
              ↔ e ∈ star_dict)) := by
  constructor
  · intro h
    rw [sampleStage]
    exact if_pos h
  · intro h
    refine ⟨by rw [sampleStage]; exact if_neg (not_lt.mpr h), ?_, ?_, ?_, ?_⟩
    · rw [randomSample, List.length_take, List.length_rotate]
      exact min_eq_left h
    · intro e he
      exact (List.rotate_perm star_dict seed).subset
        (List.take_subset _ _ he)
    · intro hnd
      exact ((List.take_sublist _ _).map Prod.fst).nodup
        (((List.rotate_perm star_dict seed).map Prod.fst).symm.nodup hnd)
    · intro hlen e
      rw [randomSample, ← hlen,
        show (star_dict.rotate seed).take star_dict.length
            = star_dict.rotate seed from by
          rw [← List.length_rotate star_dict seed]
          exact List.take_length _]
      exact (List.rotate_perm star_dict seed).mem_iff

/-- Witness for C4: an empty pool with target 2 aborts; a one-entry
pool with target 1 is sampled to exactly one entry. -/
theorem c4_sampling_witness :
    sampleStage ⟨0, 2, 0, 1⟩ 0 [] = none
    ∧ sampleStage ⟨0, 1, 0, 1⟩ 0 [((0 : ℝ), [((1 : ℝ), 1, 0, 0)])]
        = some (randomSample 0 [((0 : ℝ), [((1 : ℝ), 1, 0, 0)])] 1)
    ∧ (randomSample 0 [((0 : ℝ), [((1 : ℝ), 1, 0, 0)])] 1).length = 1 :=
  ⟨(c4_sampling ⟨0, 2, 0, 1⟩ 0 []).1 (by norm_num),
    ((c4_sampling ⟨0, 1, 0, 1⟩ 0 [((0 : ℝ), [((1 : ℝ), 1, 0, 0)])]).2
      (by norm_num)).1,
    (((c4_sampling ⟨0, 1, 0, 1⟩ 0 [((0 : ℝ), [((1 : ℝ), 1, 0, 0)])]).2
      (by norm_num)).2).1⟩

/-- Counterexample for C4: a pool of one exposure with target 2 is
below the target (pool size <= target), yet the Sampling stage aborts
(`none`, modelling `return platepar, False`) instead of being a no-op
that uses the full pool. -/
theorem c4_sampling_counterexample :
    sampleStage ⟨0, 2, 0, 1⟩ 0 [((0 : ℝ), [((1 : ℝ), 1, 0, 0)])] = none
    ∧ ([((0 : ℝ), [((1 : ℝ), 1, 0, 0)])]).length ≤ 2 := by
  constructor
  · rw [sampleStage]
    exact if_pos (by norm_num)
  · norm_num

/-- C8: a qualifying pool below the configured exposure minimum, or a
sampled pool whose total star count is below the configured star
minimum, makes the controller return the input calibration unchanged
with `success = false`. -/
theorem c8_insufficient_data (E : Ext) (cfg : Config) (platepar : Platepar)
    (calstars_list : List (ℕ × List StarEntry)) :
    ((qualifying cfg E.jdOf calstars_list).length < cfg.calstars_files_N →
      autoCheckFit E cfg platepar calstars_list = some (platepar, false))
    ∧ (∀ star_dict,
        sampleStage cfg E.sampleSeed (qualifying cfg E.jdOf calstars_list)
          = some star_dict →
        (star_dict.map (fun e => e.2.length)).sum < cfg.calstars_min_stars →
        autoCheckFit E cfg platepar calstars_list = some (platepar, false)) := by
  constructor
  · intro h
    have hs : sampleStage cfg E.sampleSeed
        (qualifying cfg E.jdOf calstars_list) = none := by
      rw [sampleStage]
      exact if_pos h
    rw [autoCheckFit, hs]
  · intro star_dict hs htot
    rw [autoCheckFit, hs]
    dsimp only
    rw [if_pos htot]

/-- Witness for C8: an empty CALSTARS list aborts at Init; a one-star
pool below a five-star minimum aborts at Sampling; both return the
input calibration with `success = false`. -/
theorem c8_insufficient_data_witness :
    autoCheckFit E0 ⟨0, 1, 5, 1⟩ pp0 [] = some (pp0, false)
    ∧ autoCheckFit E0 ⟨0, 1, 5, 1⟩ pp0 [(0, [((1 : ℝ), 1, 0, 0)])]
        = some (pp0, false) :=
  ⟨(c8_insufficient_data E0 ⟨0, 1, 5, 1⟩ pp0 []).1 (by simp [qualifying]),
    (c8_insufficient_data E0 ⟨0, 1, 5, 1⟩ pp0
        [(0, [((1 : ℝ), 1, 0, 0)])]).2
      [((0 : ℝ), [((1 : ℝ), 1, 0, 0)])] rfl (by norm_num)⟩

/-- C6 (amended): when the with-count evaluation at the head of a
radius stage yields a triple (necessarily a positive matched count)
below the number of sampled exposures (`calstars_files_N`, the exact
size of the sampled pool), the stage aborts with the platepar as of
the prior successful stage, and the controller loop returns it with
`success = false`.  (A zero matched count instead crashes the
destructuring, see C10.) -/
theorem c6_poor_initial_fit (E : Ext) (cfg : Config)
    (catalog_stars : List CatStar) (star_dict : List (ℝ × List StarEntry))
    (pp : Platepar) (max_radius : ℝ) (n : ℕ) (avg cost : ℝ)
    (hmsr : matchStarsResiduals E pp catalog_stars star_dict max_radius
      cfg.min_matched_stars true = .triple n avg cost)
    (hn : n < cfg.calstars_files_N) :
    runStage E cfg catalog_stars star_dict pp max_radius = .abort pp
    ∧ ∀ rs, acfLoop E cfg catalog_stars star_dict pp (max_radius :: rs)
        = some (pp, false) := by
  have hstage : runStage E cfg catalog_stars star_dict pp max_radius
      = .abort pp := by
    rw [runStage, hmsr]
    dsimp only
    rw [if_pos hn]
  exact ⟨hstage, fun rs => by rw [acfLoop, hstage]⟩

/-- Witness for C6: one exposure matching one star against a target of
two sampled exposures aborts the stage and the loop, returning the
unrefined calibration with `success = false`. -/
theorem c6_poor_initial_fit_witness :
    runStage E0 ⟨0, 2, 0, 1⟩ [((1 : ℝ), 1, 0)]
      [((0 : ℝ), [((1 : ℝ), 1, 0, 0)])] pp0 3 = .abort pp0
    ∧ acfLoop E0 ⟨0, 2, 0, 1⟩ [((1 : ℝ), 1, 0)]
        [((0 : ℝ), [((1 : ℝ), 1, 0, 0)])] pp0 [3] = some (pp0, false) := by
  have h := c6_poor_initial_fit E0 ⟨0, 2, 0, 1⟩ [((1 : ℝ), 1, 0)]
    [((0 : ℝ), [((1 : ℝ), 1, 0, 0)])] pp0 3 1 0 0 msr_eval (by norm_num)
  exact ⟨h.1, h.2 []⟩

/-- Counterexample for C6: with one sampled exposure holding no stars,
the stage-head evaluation matches zero stars (zero is smaller than the
number of sampled exposures), and the run crashes (`none`, the
unpacking `n_matched, avg_dist, cost = ...` of a bare float raises)
instead of returning the calibration with `success = false`. -/
theorem c6_poor_initial_fit_counterexample :
    autoCheckFit E0 ⟨0, 1, 0, 1⟩ pp0 [(0, [])] = none := rfl

/-- C10: whenever the pooled distance list is empty, the with-count
variant of the evaluator returns the bare scalar `9999.0` rather than
a triple, the radius stage destructuring it crashes, and the
controller loop yields no result instead of a `success = false`
return. -/
theorem c10_bare_scalar_on_zero_matches (E : Ext) (pp : Platepar)
    (catalog_stars : List CatStar) (star_dict : List (ℝ × List StarEntry))
    (max_radius : ℝ) (min_matched_stars : ℕ)
    (h : pooledDists E pp catalog_stars star_dict max_radius
      min_matched_stars = []) :
    matchStarsResiduals E pp catalog_stars star_dict max_radius
      min_matched_stars true = .scalar 9999
    ∧ (∀ cfg : Config, cfg.min_matched_stars = min_matched_stars →
        runStage E cfg catalog_stars star_dict pp max_radius = .crash
        ∧ ∀ rs, acfLoop E cfg catalog_stars star_dict pp (max_radius :: rs)
            = none) := by
  have hmsr : matchStarsResiduals E pp catalog_stars star_dict max_radius
      min_matched_stars true = .scalar 9999 := by
    rw [matchStarsResiduals]
    dsimp only
    rw [h]
    exact if_pos rfl
  refine ⟨hmsr, fun cfg hc => ?_⟩
  have hstage : runStage E cfg catalog_stars star_dict pp max_radius
      = .crash := by
    rw [runStage, hc, hmsr]
  exact ⟨hstage, fun rs => by rw [acfLoop, hstage]⟩

/-- Witness for C10: a starless exposure pools nothing; the evaluator
returns the bare sentinel and the stage crashes. -/
theorem c10_bare_scalar_on_zero_matches_witness :
    matchStarsResiduals E0 pp0 [] [((0 : ℝ), [])] 3 1 true = .scalar 9999
    ∧ runStage E0 ⟨0, 1, 0, 1⟩ [] [((0 : ℝ), [])] pp0 3 = .crash := by
  have h := c10_bare_scalar_on_zero_matches E0 pp0 [] [((0 : ℝ), [])] 3 1 rfl
  exact ⟨h.1, (h.2 ⟨0, 1, 0, 1⟩ rfl).1⟩

/-- After a stage passes its initial-count check, its outcome is
decided by the three minimizer calls alone. -/
theorem runStage_unfold (E : Ext) (cfg : Config)
    (catalog_stars : List CatStar) (star_dict : List (ℝ × List StarEntry))
    (pp : Platepar) (max_radius : ℝ) (n : ℕ) (avg cost : ℝ)
    (hmsr : matchStarsResiduals E pp catalog_stars star_dict max_radius
      cfg.min_matched_stars true = .triple n avg cost)
    (hn : ¬ n < cfg.calstars_files_N) :
    runStage E cfg catalog_stars star_dict pp max_radius =
      (let res4 := astroFit E cfg catalog_stars star_dict max_radius pp
       if res4.2 then
         let pp1 := applyAstro pp res4.1
         let resx := distFit E cfg catalog_stars star_dict max_radius pp1 .x
         if resx.2 then
           let pp2 := { pp1 with x_poly := resx.1 }
           let resy := distFit E cfg catalog_stars star_dict max_radius pp2 .y
           if resy.2 then .ok { pp2 with y_poly := resy.1 }
           else .abort pp2
         else .abort pp1
       else .abort pp) := by
  rw [runStage, hmsr]
  dsimp only
  rw [if_neg hn]

/-- A non-crashed, non-aborted controller loop step came from an `ok`
stage. -/
theorem acfLoop_ok_cons (E : Ext) (cfg : Config)
    (catalog_stars : List CatStar) (star_dict : List (ℝ × List StarEntry))
    (pp ppf : Platepar) (r : ℝ) (rs : List ℝ)
    (h : acfLoop E cfg catalog_stars star_dict pp (r :: rs)
      = some (ppf, true)) :
    ∃ pp1, runStage E cfg catalog_stars star_dict pp r = .ok pp1
      ∧ acfLoop E cfg catalog_stars star_dict pp1 rs = some (ppf, true) := by
  rw [acfLoop] at h
  cases hst : runStage E cfg catalog_stars star_dict pp r with
  | crash => rw [hst] at h; exact Option.noConfusion h
  | abort pp2 =>
    rw [hst] at h
    simp only [Option.some.injEq, Prod.mk.injEq] at h
    exact absurd h.2 (by simp)
  | ok pp2 => exact ⟨pp2, rfl, by rw [hst] at h; exact h⟩

/-- A successful empty loop returns the platepar it was handed. -/
theorem acfLoop_ok_nil (E : Ext) (cfg : Config)
    (catalog_stars : List CatStar) (star_dict : List (ℝ × List StarEntry))
    (pp ppf : Platepar)
    (h : acfLoop E cfg catalog_stars star_dict pp [] = some (ppf, true)) :
    ppf = pp := by
  rw [acfLoop] at h
  cases hmsr : matchStarsResiduals E pp catalog_stars star_dict (0.75 : ℝ)
      cfg.min_matched_stars true with
  | scalar c => rw [hmsr] at h; exact Option.noConfusion h
  | triple n avg c =>
    rw [hmsr] at h
    simp only [Option.some.injEq, Prod.mk.injEq] at h
    exact h.1.symm

/-- C7: a non-converged minimizer call aborts the stage at once with
the calibration as updated by the preceding successful sub-steps (the
failed call's parameters are not applied), the run loop turns that
into a `success = false` return, an `ok` stage outcome certifies that
all three of its minimizer calls converged, and a `success = true`
controller result certifies an `ok` chain through all three scheduled
radii. -/
theorem c7_optimizer_divergence (E : Ext) (cfg : Config) :
    (∀ (catalog_stars : List CatStar)
        (star_dict : List (ℝ × List StarEntry)) (pp : Platepar)
        (max_radius : ℝ) (n : ℕ) (avg cost : ℝ),
      matchStarsResiduals E pp catalog_stars star_dict max_radius
        cfg.min_matched_stars true = .triple n avg cost →
      ¬ n < cfg.calstars_files_N →
      ∀ q4 b4, astroFit E cfg catalog_stars star_dict max_radius pp
          = (q4, b4) →
        (b4 = false →
          runStage E cfg catalog_stars star_dict pp max_radius = .abort pp)
        ∧ (b4 = true → ∀ qx bx,
            distFit E cfg catalog_stars star_dict max_radius
              (applyAstro pp q4) .x = (qx, bx) →
            (bx = false →
              runStage E cfg catalog_stars star_dict pp max_radius
                = .abort (applyAstro pp q4))
            ∧ (bx = true → ∀ qy b3,
                distFit E cfg catalog_stars star_dict max_radius
                  { applyAstro pp q4 with x_poly := qx } .y = (qy, b3) →
                (b3 = false →
                  runStage E cfg catalog_stars star_dict pp max_radius
                    = .abort { applyAstro pp q4 with x_poly := qx })
                ∧ (b3 = true →
                    runStage E cfg catalog_stars star_dict pp max_radius
                      = .ok { { applyAstro pp q4 with x_poly := qx } with
                              y_poly := qy }))))
    ∧ (∀ catalog_stars star_dict pp max_radius pp2,
        runStage E cfg catalog_stars star_dict pp max_radius = .ok pp2 →
        StageConverged E cfg catalog_stars star_dict max_radius pp)
    ∧ (∀ platepar calstars_list ppf,
        autoCheckFit E cfg platepar calstars_list = some (ppf, true) →
        ∃ star_dict pp1 pp2 pp3,
          sampleStage cfg E.sampleSeed (qualifying cfg E.jdOf calstars_list)
            = some star_dict
          ∧ runStage E cfg E.catalog_stars star_dict platepar 3 = .ok pp1
          ∧ runStage E cfg E.catalog_stars star_dict pp1 (1.5 : ℝ) = .ok pp2
          ∧ runStage E cfg E.catalog_stars star_dict pp2 (0.75 : ℝ) = .ok pp3
          ∧ ppf = pp3) := by
  refine ⟨?_, ?_, ?_⟩
  · intro catalog_stars star_dict pp max_radius n avg cost hmsr hn q4 b4 h4
    have hu := runStage_unfold E cfg catalog_stars star_dict pp max_radius
      n avg cost hmsr hn
    rw [h4] at hu
    dsimp only at hu
    constructor
    · intro hb4
      rw [hb4] at hu
      rw [hu]
      rfl
    · intro hb4 qx bx hx
      rw [hb4] at hu
      rw [hx] at hu
      dsimp only at hu
      constructor
      · intro hbx
        rw [hbx] at hu
        rw [hu]
        rfl
      · intro hbx qy b3 hy
        rw [hbx] at hu
        rw [hy] at hu
        dsimp only at hu
        constructor
        · intro hb3
          rw [hb3] at hu
          rw [hu]
          rfl
        · intro hb3
          rw [hb3] at hu
          rw [hu]
          rfl
  · intro catalog_stars star_dict pp max_radius pp2 hok
    rw [runStage] at hok
    rw [StageConverged]
    split at hok
    · exact StageRes.noConfusion hok
    · split at hok
      · exact StageRes.noConfusion hok
      · dsimp only at hok ⊢
        by_cases h4 : (astroFit E cfg catalog_stars star_dict max_radius
            pp).2 = true
        · rw [if_pos h4] at hok
          refine ⟨h4, ?_⟩
          by_cases hx : (distFit E cfg catalog_stars star_dict max_radius
              (applyAstro pp (astroFit E cfg catalog_stars star_dict
                max_radius pp).1) .x).2 = true
          · rw [if_pos hx] at hok
            refine ⟨hx, ?_⟩
            by_cases hy : (distFit E cfg catalog_stars star_dict max_radius
                { applyAstro pp (astroFit E cfg catalog_stars star_dict
                    max_radius pp).1 with
                  x_poly := (distFit E cfg catalog_stars star_dict max_radius
                    (applyAstro pp (astroFit E cfg catalog_stars star_dict
                      max_radius pp).1) .x).1 } .y).2 = true
            · exact hy
            · rw [if_neg hy] at hok
              exact StageRes.noConfusion hok
          · rw [if_neg hx] at hok
            exact StageRes.noConfusion hok
        · rw [if_neg h4] at hok
          exact StageRes.noConfusion hok
  · intro platepar calstars_list ppf hsucc
    rw [autoCheckFit] at hsucc
    cases hsamp : sampleStage cfg E.sampleSeed
        (qualifying cfg E.jdOf calstars_list) with
    | none =>
      rw [hsamp] at hsucc
      simp only [Option.some.injEq, Prod.mk.injEq] at hsucc
      exact absurd hsucc.2 (by simp)
    | some star_dict =>
      rw [hsamp] at hsucc
      dsimp only at hsucc
      split at hsucc
      · simp only [Option.some.injEq, Prod.mk.injEq] at hsucc
        exact absurd hsucc.2 (by simp)
      · obtain ⟨pp1, h1, hs1⟩ := acfLoop_ok_cons E cfg E.catalog_stars
          star_dict platepar ppf 3 [(1.5 : ℝ), (0.75 : ℝ)] hsucc
        obtain ⟨pp2, h2, hs2⟩ := acfLoop_ok_cons E cfg E.catalog_stars
          star_dict pp1 ppf (1.5 : ℝ) [(0.75 : ℝ)] hs1
        obtain ⟨pp3, h3, hs3⟩ := acfLoop_ok_cons E cfg E.catalog_stars
          star_dict pp2 ppf (0.75 : ℝ) [] hs2
        exact ⟨star_dict, pp1, pp2, pp3, rfl, h1, h2, h3,
          acfLoop_ok_nil E cfg E.catalog_stars star_dict pp3 ppf hs3⟩

/-- Witness for C7: the concrete non-converging minimizer makes the
first radius stage abort with the untouched stage-entry platepar. -/
theorem c7_optimizer_divergence_witness :
    runStage E0 ⟨0, 1, 0, 1⟩ [((1 : ℝ), 1, 0)]
      [((0 : ℝ), [((1 : ℝ), 1, 0, 0)])] pp0 3 = .abort pp0 :=
  (((c7_optimizer_divergence E0 ⟨0, 1, 0, 1⟩).1
    [((1 : ℝ), 1, 0)] [((0 : ℝ), [((1 : ℝ), 1, 0, 0)])] pp0 3 1 0 0
    msr_eval (by norm_num)
    (pp0.RA_d, pp0.dec_d, pp0.pos_angle_ref, pp0.F_scale) false rfl).1) rfl

/-- C9: both per-evaluation wrappers write the trial parameters only
to a deep copy: after an evaluation the caller's platepar object is
unchanged in the store, and the returned cost is the pure evaluation
on the updated copy of the caller's record. -/
theorem c9_evaluation_preserves_caller (E : Ext) (params4 : ℝ × ℝ × ℝ × ℝ)
    (paramsP : List ℝ) (r : ℕ) (h : PlateparStore)
    (catalog_stars : List CatStar) (star_dict : List (ℝ × List StarEntry))
    (max_radius : ℝ) (min_matched_stars : ℕ) (href : r < h.next) :
    readRef (calcImageResidualsAstroRef E params4 r h catalog_stars
        star_dict max_radius min_matched_stars).2 r = readRef h r
    ∧ (calcImageResidualsAstroRef E params4 r h catalog_stars star_dict
        max_radius min_matched_stars).1
      = calcImageResidualsAstro E params4 (readRef h r) catalog_stars
          star_dict max_radius min_matched_stars
    ∧ (∀ dimension,
        readRef (calcImageResidualsDistorsionRef E paramsP r h catalog_stars
            star_dict max_radius min_matched_stars dimension).2 r
          = readRef h r)
    ∧ (∀ dimension,
        (calcImageResidualsDistorsionRef E paramsP r h catalog_stars
            star_dict max_radius min_matched_stars dimension).1
          = calcImageResidualsDistorsion E paramsP (readRef h r)
              catalog_stars star_dict max_radius min_matched_stars
              dimension) := by
  have hne : r ≠ h.next := Nat.ne_of_lt href
  refine ⟨?_, ?_, ?_, ?_⟩
  · simp [calcImageResidualsAstroRef, deepcopy, writeRef, readRef, hne]
  · simp [calcImageResidualsAstroRef, calcImageResidualsAstro, deepcopy,
      writeRef, readRef, hne]
  · intro dimension
    cases dimension <;>
      simp [calcImageResidualsDistorsionRef, deepcopy, writeRef, readRef, hne]
  · intro dimension
    cases dimension <;>
      simp [calcImageResidualsDistorsionRef, calcImageResidualsDistorsion,
        deepcopy, writeRef, readRef, hne]

/-- Witness for C9: a one-object store; after an evaluation with trial
parameters (1, 2, 3, 4) the caller's record still reads back as the
original calibration. -/
theorem c9_evaluation_preserves_caller_witness :
    readRef (calcImageResidualsAstroRef E0 (1, 2, 3, 4) 0
        ⟨fun _ => pp0, 1⟩ [] [] 3 1).2 0 = readRef ⟨fun _ => pp0, 1⟩ 0 :=
  (c9_evaluation_preserves_caller E0 (1, 2, 3, 4) [] 0 ⟨fun _ => pp0, 1⟩
    [] [] 3 1 (by norm_num)).1

end ACF
